import Mathlib

/-!
Shallow embedding of the QTablePanel client (src/src/QTablePanel.tsx).

The component keeps a local table of Q-rows synchronized with a remote
service.  We model its client-side state, the transport results it can
observe, and the three operations that mutate state:

* refresh            (source lines 52-69)
* demoStep           (source lines 72-104)
* the reset effect   (source lines 107-117)

together with the interaction surface that gates the triggers
(button disabled props, lines 143-168, and the keydown handler
onKey, lines 126-134).

JavaScript semantics that matter and are modelled faithfully:

* fetch resolves for every HTTP response (any status) and rejects only on
  a network-level error; non-2xx is surfaced through the ok flag.
* response.json() can fail (unparseable body); we model its result as an
  Except value.
* property access on a parsed JSON value: accessing a field of null
  throws a TypeError; accessing a missing field of an object, or any
  field of a number, string, boolean or array, yields undefined
  (modelled as Option.none).
-/

namespace QTable

/-- Parsed JSON values, as produced by response.json(). -/
inductive Json where
  | null
  | bool (b : Bool)
  | num (q : Rat)
  | str (s : String)
  | arr (elems : List Json)
  | obj (fields : List (String × Json))

/-- First-match lookup of a field in a JSON object literal. -/
def lookupField : List (String × Json) → String → Option Json
  | [], _ => none
  | (k, v) :: rest, name => if k == name then some v else lookupField rest name

/-- JavaScript property read j.name: throws a TypeError on null, yields
undefined (none) for a missing field or a non-object receiver. -/
def Json.fieldAccess : Json → String → Except String (Option Json)
  | .null, name =>
      .error ("TypeError: Cannot read properties of null (reading " ++ name ++ ")")
  | .obj fields, name => .ok (lookupField fields name)
  | _, _ => .ok none

/-- The component state: rows, the two busy flags, the error message and
the last-updated timestamp (source lines 18-22). -/
structure PanelState where
  rows : List Json
  busyDemo : Bool
  refreshing : Bool
  error : String
  lastUpdated : Option Nat

/-- The initial component state (useState initialisers, lines 18-22). -/
def initState : PanelState :=
  { rows := [], busyDemo := false, refreshing := false, error := "",
    lastUpdated := none }

/-- What one awaited fetchJSON call can produce: an HTTP response with its
ok flag, status, and the result of parsing its body as JSON, or a
network-level rejection carrying a message. -/
inductive FetchResult where
  | resp (ok : Bool) (status : Nat) (body : Except String Json)
  | netErr (msg : String)

/-- The expression Array.isArray(j.rows) ? j.rows : [] from line 61,
including the TypeError a null j raises. -/
def tableRowsFromBody (j : Json) : Except String (List Json) :=
  match j.fieldAccess ("rows") with
  | .error msg => .error msg
  | .ok (some (.arr xs)) => .ok xs
  | .ok _ => .ok []

/-- refresh (source lines 52-69): clear the error, raise the refreshing
flag, await the table fetch; on a 2xx response parse the body and replace
the rows wholesale (defaulting to [] when rows is absent or not an
array) and stamp lastUpdated; on any thrown failure set the error to its
message and leave rows alone; finally lower the refreshing flag. -/
def refresh (s : PanelState) (res : FetchResult) (now : Nat) : PanelState :=
  let s1 := { s with error := "", refreshing := true }
  let s2 :=
    match res with
    | .netErr msg => { s1 with error := msg }
    | .resp false status _ =>
        { s1 with error := "GET /q/table HTTP " ++ toString status }
    | .resp true _ (.error msg) => { s1 with error := msg }
    | .resp true _ (.ok j) =>
        match tableRowsFromBody j with
        | .error msg => { s1 with error := msg }
        | .ok xs => { s1 with rows := xs, lastUpdated := some now }
  { s2 with refreshing := false }

/-- The rows a refresh observing this fetch result will install, when the
whole success path of lines 58-62 goes through; none when any step throws. -/
def tableRowsOf : FetchResult → Option (List Json)
  | .resp true _ (.ok j) =>
      match tableRowsFromBody j with
      | .ok xs => some xs
      | .error _ => none
  | _ => none

/-- The message refresh stores in the error state for each of the three
failure kinds of the claim: non-2xx status, network error, JSON parse
error.  (A 2xx response whose parsed body is null fails later, at the
j.rows access; that failure is not among these three.) -/
def refreshFailureMsg : FetchResult → Option String
  | .netErr msg => some msg
  | .resp false status _ => some ("GET /q/table HTTP " ++ toString status)
  | .resp true _ (.error msg) => some msg
  | .resp true _ (.ok _) => none

/-- JavaScript object spread with one replaced field,
as in the next_state construction of line 88: the fields keep their order
and the named field (already present) gets the new value. -/
def Json.setField : Json → String → Json → Json
  | .obj fields, name, v =>
      .obj (fields.map (fun p => if p.1 == name then (p.1, v) else p))
  | j, _, _ => j

/-- The composed demo state of line 76:
difficulty 2, enemies 1, timeMult 1, recentSR 0.7 on success / 0.3 on
failure. -/
def demoState (success : Bool) : Json :=
  .obj [("difficulty", .num 2), ("enemies", .num 1), ("timeMult", .num 1),
        ("recentSR", .num (if success then 7/10 else 3/10))]

/-- The reward of line 87: +1.0 on success, -1.0 on failure. -/
def demoReward (success : Bool) : Rat :=
  if success then 1 else -1

/-- The next_state of line 88: the spread of the composed state with
recentSR overwritten to 0.75 on success / 0.25 on failure. -/
def demoNextState (success : Bool) : Json :=
  (demoState success).setField ("recentSR")
    (.num (if success then 3/4 else 1/4))

/-- The requests the component can issue, with the payloads the source
passes: the choose body is the literal left brace state right brace of
line 81, the update body carries exactly the five fields of line 93
(action is the possibly-undefined value read from the choose response),
the table fetch and the reset carry only the user. -/
inductive Request where
  | chooseReq (user : String) (body : Json)
  | updateReq (user : String) (state : Json) (action : Option Json)
      (reward : Rat) (next_state : Json) (done : Bool)
  | tableReq (user : String)
  | resetReq (user : String)

/-- The transport results demoStep can observe: one for the choose call,
one for the update call, one for the table fetch of the terminal
refresh. -/
structure DemoEnv where
  chooseRes : FetchResult
  updateRes : FetchResult
  tableRes : FetchResult

/-- Lines 83-85 condensed: the value bound to action after the choose
call, or the message of the exception thrown on the way there
(non-2xx status on line 83, a json() parse failure on line 84, or the
TypeError a null body raises at choose.action on line 85). -/
def chooseOutcome : FetchResult → Except String (Option Json)
  | .netErr msg => .error msg
  | .resp false status _ =>
      .error ("POST /q/choose HTTP " ++ toString status)
  | .resp true _ (.error msg) => .error msg
  | .resp true _ (.ok j) => j.fieldAccess ("action")

/-- Line 95: the update response only has its ok flag checked; its body
is never parsed.  Some message when the await or the check throws. -/
def updateFailureMsg : FetchResult → Option String
  | .netErr msg => some msg
  | .resp false status _ =>
      .some ("POST /q/update HTTP " ++ toString status)
  | .resp true _ _ => none

/-- demoStep (source lines 72-104): raise busyDemo, clear the error,
compose the demo state, POST choose; a throw anywhere lands in the catch
(error := message) and the finally always lowers busyDemo.  After a good
choose, read action, POST update with the five-field body; after a good
update, run refresh (whose own try/catch keeps its failures from
escaping).  Returns the final state together with the list of requests
issued, in order. -/
def demoStep (user : String) (s : PanelState) (success : Bool)
    (env : DemoEnv) (now : Nat) : PanelState × List Request :=
  let s1 := { s with busyDemo := true, error := "" }
  let state := demoState success
  let reqs0 : List Request := [.chooseReq user (.obj [("state", state)])]
  match chooseOutcome env.chooseRes with
  | .error msg => ({ s1 with error := msg, busyDemo := false }, reqs0)
  | .ok action =>
    let reqs1 := reqs0 ++
      [.updateReq user state action (demoReward success)
        (demoNextState success) false]
    match updateFailureMsg env.updateRes with
    | some msg => ({ s1 with error := msg, busyDemo := false }, reqs1)
    | none =>
        let s2 := refresh s1 env.tableRes now
        ({ s2 with busyDemo := false }, reqs1 ++ [.tableReq user])

/-- The reset effect (source lines 107-117): await the POST /reset; when
any HTTP response arrives (the ok flag is never inspected) clear the rows
and stamp lastUpdated; only a network-level rejection reaches the catch,
which merely logs and changes no state. -/
def resetOnIdentityChange (s : PanelState) (res : FetchResult) (now : Nat) :
    PanelState :=
  match res with
  | .netErr _ => s
  | .resp _ _ _ => { s with rows := [], lastUpdated := some now }

/-- A keydown event, with the fields the handler of line 128 reads (and
shiftKey, which it does not read). -/
structure KeyEvent where
  key : String
  ctrlKey : Bool
  metaKey : Bool
  altKey : Bool
  shiftKey : Bool

/-- key.toLowerCase(), mapping the case conversion over the characters. -/
def lowercase (s : String) : String :=
  ⟨s.data.map Char.toLower⟩

/-- The condition of the onKey handler (line 128) under which it invokes
refresh: lowercased key is r and none of ctrl, meta, alt is held. -/
def onKeyFires (e : KeyEvent) : Bool :=
  lowercase e.key == "r" && !e.ctrlKey && !e.metaKey && !e.altKey

/-- The four user-facing triggers: the three buttons and a keydown. -/
inductive Trigger where
  | refreshButton
  | demoWinButton
  | demoLoseButton
  | keyTrigger (e : KeyEvent)

/-- Whether a trigger starts a refresh in the given state: the refresh
button is disabled while refreshing or busyDemo (line 163); the keydown
handler (lines 126-134) checks only the key and the modifiers, never the
busy flags. -/
def triggerStartsRefresh (s : PanelState) : Trigger → Bool
  | .refreshButton => !(s.refreshing || s.busyDemo)
  | .keyTrigger e => onKeyFires e
  | .demoWinButton => false
  | .demoLoseButton => false

/-- Whether a trigger starts a demo step in the given state: both demo
buttons are disabled while busyDemo or refreshing (lines 145 and 153). -/
def triggerStartsDemo (s : PanelState) : Trigger → Bool
  | .demoWinButton => !(s.busyDemo || s.refreshing)
  | .demoLoseButton => !(s.busyDemo || s.refreshing)
  | .refreshButton => false
  | .keyTrigger _ => false

/-- A sequence of refreshes, each observing its fetch result and clock
reading, folded over the state. -/
def runRefreshes (s : PanelState) (ress : List (FetchResult × Nat)) :
    PanelState :=
  ress.foldl (fun st p => refresh st p.1 p.2) s

/-- The rows of the most recent fetch result in the list on which the
refresh success path completes, or the given default when none does. -/
def lastSuccessRows (ress : List (FetchResult × Nat))
    (dflt : List Json) : List Json :=
  ress.foldl
    (fun acc p =>
      match tableRowsOf p.1 with
      | some xs => xs
      | none => acc)
    dflt

/-! ## Helper lemmas shared by several results -/

/-- On the failure kinds enumerated by refreshFailureMsg, refresh only
stores the message and lowers the refreshing flag. -/
theorem refresh_failure_eq (s : PanelState) (res : FetchResult) (now : Nat)
    (msg : String) (h : refreshFailureMsg res = some msg) :
    refresh s res now = { s with error := msg, refreshing := false } := by
  rcases res with ⟨ok, status, body⟩ | m
  · cases ok
    · simp only [refreshFailureMsg, Option.some.injEq] at h
      subst h
      rfl
    · rcases body with m | j
      · simp only [refreshFailureMsg, Option.some.injEq] at h
        subst h
        rfl
      · exact Option.noConfusion h
  · simp only [refreshFailureMsg, Option.some.injEq] at h
    subst h
    rfl

/-- When the whole success path goes through, refresh installs exactly the
rows of the response, stamps lastUpdated, and clears error and the
refreshing flag, touching nothing else. -/
theorem refresh_success_eq (s : PanelState) (res : FetchResult) (now : Nat)
    (xs : List Json) (h : tableRowsOf res = some xs) :
    refresh s res now =
      { s with rows := xs, lastUpdated := some now, error := "",
               refreshing := false } := by
  rcases res with ⟨ok, status, body⟩ | m
  · cases ok
    · exact Option.noConfusion h
    · rcases body with m | j
      · exact Option.noConfusion h
      · simp only [tableRowsOf] at h
        rcases hb : tableRowsFromBody j with m | ys
        · rw [hb] at h
          exact Option.noConfusion h
        · rw [hb] at h
          obtain rfl : ys = xs := Option.some.inj h
          simp only [refresh, hb]
  · exact Option.noConfusion h

/-- The rows refresh leaves behind: those of a completed success path, or
the previous ones. -/
theorem refresh_rows (s : PanelState) (res : FetchResult) (now : Nat) :
    (refresh s res now).rows = (tableRowsOf res).getD s.rows := by
  rcases res with ⟨ok, status, body⟩ | m
  · cases ok
    · rfl
    · rcases body with m | j
      · rfl
      · rcases hb : tableRowsFromBody j with m | ys <;>
          simp [refresh, tableRowsOf, hb]
  · rfl

/-- The lastUpdated stamp refresh leaves behind: the clock reading when
the success path completes, the previous stamp on every other path —
the three enumerated failures and the null-body throw alike. -/
theorem refresh_lastUpdated (s : PanelState) (res : FetchResult)
    (now : Nat) :
    (refresh s res now).lastUpdated =
      match tableRowsOf res with
      | some _ => some now
      | none => s.lastUpdated := by
  rcases res with ⟨ok, status, body⟩ | m
  · cases ok
    · rfl
    · rcases body with m | j
      · rfl
      · rcases hb : tableRowsFromBody j with m | ys <;>
          simp [refresh, tableRowsOf, hb]
  · rfl

/-- The refreshing flag is lowered in the finally block, on every path. -/
theorem refresh_refreshing_false (s : PanelState) (res : FetchResult)
    (now : Nat) : (refresh s res now).refreshing = false := by
  rcases res with ⟨ok, status, body⟩ | m
  · cases ok
    · rfl
    · rcases body with m | j
      · rfl
      · rcases hb : tableRowsFromBody j with m | ys <;>
          simp [refresh, hb]
  · rfl

/-! ## C1: the busy gate over the triggers -/

/-- Claim C1 counterexample: the claim says that while either busy flag is
true no new refresh can start from any trigger, the keyboard shortcut
included.  In a state whose refreshing flag is true, a plain keydown on r
still starts a refresh: the onKey handler never consults the busy
flags. -/
theorem keyboard_bypasses_busy_gate :
    ({ rows := [], busyDemo := false, refreshing := true, error := "",
       lastUpdated := none } : PanelState).refreshing = true ∧
    triggerStartsRefresh
      { rows := [], busyDemo := false, refreshing := true, error := "",
        lastUpdated := none }
      (.keyTrigger ⟨"r", false, false, false, false⟩) = true := by
  exact ⟨rfl, by decide⟩

/-- Claim C1 (amended): the button triggers are all subject to the
combined busy gate — while busyDemo or refreshing is true, neither the
refresh button nor either demo button starts an operation — but the
keyboard shortcut is not gated: whether a keydown starts a refresh
depends only on the event, never on the busy flags. -/
theorem busy_gate_buttons_only (s : PanelState)
    (h : (s.busyDemo || s.refreshing) = true) :
    triggerStartsRefresh s .refreshButton = false ∧
    triggerStartsDemo s .demoWinButton = false ∧
    triggerStartsDemo s .demoLoseButton = false ∧
    ∀ e : KeyEvent, triggerStartsRefresh s (.keyTrigger e) = onKeyFires e := by
  refine ⟨?_, ?_, ?_, fun e => rfl⟩ <;>
    · cases hb : s.busyDemo <;> cases hr : s.refreshing <;>
        simp_all [triggerStartsRefresh, triggerStartsDemo]

/-- Witness for the amended C1 at a concrete busy state. -/
theorem busy_gate_buttons_only_witness :
    triggerStartsRefresh
      { rows := [], busyDemo := true, refreshing := false, error := "",
        lastUpdated := none } .refreshButton = false ∧
    triggerStartsDemo
      { rows := [], busyDemo := true, refreshing := false, error := "",
        lastUpdated := none } .demoWinButton = false ∧
    triggerStartsDemo
      { rows := [], busyDemo := true, refreshing := false, error := "",
        lastUpdated := none } .demoLoseButton = false ∧
    ∀ e : KeyEvent,
      triggerStartsRefresh
        { rows := [], busyDemo := true, refreshing := false, error := "",
          lastUpdated := none } (.keyTrigger e) = onKeyFires e :=
  busy_gate_buttons_only
    { rows := [], busyDemo := true, refreshing := false, error := "",
      lastUpdated := none } (by decide)

/-! ## C8: the modifier-key filter of the shortcut -/

/-- Claim C8 counterexample: the claim says the shortcut never fires when
any of Ctrl, Meta, Alt or Shift is held.  A keydown carrying key R with
shiftKey true and the other modifiers false does fire: the handler never
reads shiftKey, and toLowerCase maps R back to r. -/
theorem shift_does_not_block_shortcut :
    (⟨"R", false, false, false, true⟩ : KeyEvent).shiftKey = true ∧
    onKeyFires ⟨"R", false, false, false, true⟩ = true := by
  exact ⟨rfl, by decide⟩

/-- Claim C8 (amended): the shortcut never fires while Ctrl, Meta or Alt
is held, but Shift is not among the checked modifiers: a shifted R still
fires. -/
theorem modifier_filter_without_shift :
    (∀ e : KeyEvent, (e.ctrlKey || e.metaKey || e.altKey) = true →
        onKeyFires e = false) ∧
    onKeyFires ⟨"R", false, false, false, true⟩ = true := by
  constructor
  · intro e h
    rcases Bool.or_eq_true_iff.mp h with h1 | h2
    · rcases Bool.or_eq_true_iff.mp h1 with hc | hm
      · simp [onKeyFires, hc]
      · simp [onKeyFires, hm]
    · simp [onKeyFires, h2]
  · decide

/-- Witness for the amended C8: a Ctrl chord is filtered out. -/
theorem modifier_filter_without_shift_witness :
    onKeyFires ⟨"r", true, false, false, false⟩ = false :=
  modifier_filter_without_shift.1 ⟨"r", true, false, false, false⟩ (by decide)

/-! ## C2: failing refreshes are non-destructive and release the flag -/

/-- Claim C2: on every failing execution of refresh — non-2xx status,
network error, or JSON parse error, the three kinds refreshFailureMsg
enumerates — the error state receives exactly that failure message and
the previously displayed rows are left unchanged; and the refreshing flag
is lowered on exit of every execution, success or failure. -/
theorem refresh_failure_nondestructive (s : PanelState) (res : FetchResult)
    (now : Nat) (msg : String) (h : refreshFailureMsg res = some msg) :
    (refresh s res now).error = msg ∧
    (refresh s res now).rows = s.rows ∧
    ∀ (r2 : FetchResult) (n2 : Nat), (refresh s r2 n2).refreshing = false := by
  rw [refresh_failure_eq s res now msg h]
  exact ⟨rfl, rfl, fun r2 n2 => refresh_refreshing_false s r2 n2⟩

/-- Witness for C2 at a concrete 500 response against a populated
table. -/
theorem refresh_failure_nondestructive_witness :
    (refresh
      { rows := [Json.num 1], busyDemo := false, refreshing := false,
        error := "", lastUpdated := none }
      (.resp false 500 (.ok .null)) 3).error = "GET /q/table HTTP 500" ∧
    (refresh
      { rows := [Json.num 1], busyDemo := false, refreshing := false,
        error := "", lastUpdated := none }
      (.resp false 500 (.ok .null)) 3).rows =
      ({ rows := [Json.num 1], busyDemo := false, refreshing := false,
         error := "", lastUpdated := none } : PanelState).rows ∧
    ∀ (r2 : FetchResult) (n2 : Nat),
      (refresh
        { rows := [Json.num 1], busyDemo := false, refreshing := false,
          error := "", lastUpdated := none } r2 n2).refreshing = false :=
  refresh_failure_nondestructive
    { rows := [Json.num 1], busyDemo := false, refreshing := false,
      error := "", lastUpdated := none }
    (.resp false 500 (.ok .null)) 3 ("GET /q/table HTTP 500") rfl

/-! ## C3: what the reset effect does on failure -/

/-- Claim C3 counterexample: the claim says a reset answered with a
non-success HTTP status changes nothing.  On a 500 response the effect
still clears the populated table and stamps lastUpdated, because the code
never reads the ok flag of the reset response. -/
theorem reset_clears_on_http_error :
    (resetOnIdentityChange
      { rows := [Json.num 1], busyDemo := false, refreshing := false,
        error := "", lastUpdated := none }
      (.resp false 500 (.ok .null)) 42).rows = [] ∧
    (resetOnIdentityChange
      { rows := [Json.num 1], busyDemo := false, refreshing := false,
        error := "", lastUpdated := none }
      (.resp false 500 (.ok .null)) 42).lastUpdated = some 42 :=
  ⟨rfl, rfl⟩

/-- Claim C3 (amended): the reset clears the local table and stamps
lastUpdated whenever the reset request receives any HTTP response,
success status or not (the status is never inspected); only a
network-level failure of the request is treated as a failure, and then
the effect changes nothing at all — it does not clear the table, does not
stamp lastUpdated, and does not touch the error state. -/
theorem reset_response_clears_netErr_noop (s : PanelState) (now : Nat) :
    (∀ (ok : Bool) (status : Nat) (body : Except String Json),
        resetOnIdentityChange s (.resp ok status body) now =
          { s with rows := [], lastUpdated := some now }) ∧
    ∀ msg : String, resetOnIdentityChange s (.netErr msg) now = s :=
  ⟨fun _ _ _ => rfl, fun _ => rfl⟩

/-! ## C9: which operations assign lastUpdated -/

/-- Claim C9 counterexample: the claim says lastUpdated stays null until
the first successful refresh and that the session reset never assigns it.
From the initial state, before any refresh at all, a reset that receives
a response assigns lastUpdated. -/
theorem reset_assigns_lastUpdated :
    initState.lastUpdated = none ∧
    (resetOnIdentityChange initState (.resp true 200 (.ok .null))
      7).lastUpdated = some 7 :=
  ⟨rfl, rfl⟩

/-- Claim C9 (amended): lastUpdated is null in the initial state; a
refresh whose success path completes stamps it, and every refresh whose
success path does not complete — the three enumerated failures and the
2xx null-body throw alike — leaves it unchanged; and the session reset
also stamps it whenever the reset request receives an HTTP response,
while a reset network failure leaves it unchanged. -/
theorem lastUpdated_assignments :
    initState.lastUpdated = none ∧
    (∀ (s : PanelState) (res : FetchResult) (now : Nat) (xs : List Json),
        tableRowsOf res = some xs →
        (refresh s res now).lastUpdated = some now) ∧
    (∀ (s : PanelState) (res : FetchResult) (now : Nat),
        tableRowsOf res = none →
        (refresh s res now).lastUpdated = s.lastUpdated) ∧
    (∀ (s : PanelState) (ok : Bool) (status : Nat)
        (body : Except String Json) (now : Nat),
        (resetOnIdentityChange s (.resp ok status body) now).lastUpdated =
          some now) ∧
    ∀ (s : PanelState) (msg : String) (now : Nat),
      (resetOnIdentityChange s (.netErr msg) now).lastUpdated =
        s.lastUpdated := by
  refine ⟨rfl, ?_, ?_, fun _ _ _ _ _ => rfl, fun _ _ _ => rfl⟩
  · intro s res now xs h
    rw [refresh_success_eq s res now xs h]
  · intro s res now h
    simp [refresh_lastUpdated, h]

/-- Witness for the amended C9: a completed refresh stamps the time; a
2xx refresh whose body is null (the success path throws at the rows
read) and a network-failed refresh both preserve the previous stamp. -/
theorem lastUpdated_assignments_witness :
    (refresh initState
      (.resp true 200 (.ok (Json.obj [("rows", Json.arr [])]))) 9).lastUpdated
      = some 9 ∧
    (refresh
      { rows := [], busyDemo := false, refreshing := false, error := "",
        lastUpdated := some 1 }
      (.resp true 200 (.ok .null)) 9).lastUpdated =
      ({ rows := [], busyDemo := false, refreshing := false, error := "",
         lastUpdated := some 1 } : PanelState).lastUpdated ∧
    (refresh initState (.netErr ("offline")) 9).lastUpdated =
      initState.lastUpdated :=
  ⟨lastUpdated_assignments.2.1 initState
      (.resp true 200 (.ok (Json.obj [("rows", Json.arr [])]))) 9 [] rfl,
   lastUpdated_assignments.2.2.1
      { rows := [], busyDemo := false, refreshing := false, error := "",
        lastUpdated := some 1 }
      (.resp true 200 (.ok .null)) 9 rfl,
   lastUpdated_assignments.2.2.1 initState (.netErr ("offline")) 9 rfl⟩

/-! ## C5: wholesale replacement of the rows -/

/-- Claim C5: a refresh whose success path completes installs exactly the
rows parsed from that response; and over any sequence of refreshes the
displayed rows equal the rows of the most recent response whose success
path completed, falling back to the rows held before the sequence — never
a union or merge of two responses. -/
theorem refresh_atomic_replace :
    (∀ (s : PanelState) (res : FetchResult) (now : Nat) (xs : List Json),
        tableRowsOf res = some xs → (refresh s res now).rows = xs) ∧
    ∀ (s : PanelState) (ress : List (FetchResult × Nat)),
      (runRefreshes s ress).rows = lastSuccessRows ress s.rows := by
  constructor
  · intro s res now xs h
    rw [refresh_success_eq s res now xs h]
  · intro s ress
    induction ress generalizing s with
    | nil => rfl
    | cons p rest ih =>
        have hstep : runRefreshes s (p :: rest) =
            runRefreshes (refresh s p.1 p.2) rest := rfl
        have htail : lastSuccessRows (p :: rest) s.rows =
            lastSuccessRows rest
              (match tableRowsOf p.1 with
               | some xs => xs
               | none => s.rows) := rfl
        rw [hstep, htail, ih]
        rcases h : tableRowsOf p.1 with _ | xs <;>
          simp [refresh_rows, h]

/-- Witness for C5: one concrete refresh installing a one-row table, and
one concrete two-refresh sequence ending at the rows of the second
response. -/
theorem refresh_atomic_replace_witness :
    (refresh initState
      (.resp true 200 (.ok (Json.obj [("rows", Json.arr [Json.num 5])])))
      4).rows = [Json.num 5] ∧
    (runRefreshes initState
      [(.resp true 200 (.ok (Json.obj [("rows", Json.arr [Json.num 5])])), 4),
       (.resp true 200 (.ok (Json.obj [("rows", Json.arr [Json.num 6])])), 8)]
      ).rows =
      lastSuccessRows
        [(.resp true 200 (.ok (Json.obj [("rows", Json.arr [Json.num 5])])), 4),
         (.resp true 200 (.ok (Json.obj [("rows", Json.arr [Json.num 6])])), 8)]
        initState.rows :=
  ⟨refresh_atomic_replace.1 initState
      (.resp true 200 (.ok (Json.obj [("rows", Json.arr [Json.num 5])])))
      4 [Json.num 5] rfl,
   refresh_atomic_replace.2 initState
      [(.resp true 200 (.ok (Json.obj [("rows", Json.arr [Json.num 5])])), 4),
       (.resp true 200 (.ok (Json.obj [("rows", Json.arr [Json.num 6])])), 8)]⟩

/-! ## C6: tolerance of a body without a usable rows field -/

/-- Claim C6 counterexample: the claim quantifies over every 2xx response
whose JSON body has no rows field.  The body null is such a body, yet the
refresh neither completes cleanly nor empties the table: reading
null.rows throws, the catch stores the TypeError message, and the
populated rows survive untouched. -/
theorem null_body_is_not_tolerated :
    (refresh
      { rows := [Json.num 1], busyDemo := false, refreshing := false,
        error := "", lastUpdated := none }
      (.resp true 200 (.ok .null)) 5).rows = [Json.num 1] ∧
    (refresh
      { rows := [Json.num 1], busyDemo := false, refreshing := false,
        error := "", lastUpdated := none }
      (.resp true 200 (.ok .null)) 5).error =
      "TypeError: Cannot read properties of null (reading rows)" ∧
    (refresh
      { rows := [Json.num 1], busyDemo := false, refreshing := false,
        error := "", lastUpdated := none }
      (.resp true 200 (.ok .null)) 5).lastUpdated = none :=
  ⟨rfl, rfl, rfl⟩

/-- Claim C6 (amended): for every 2xx table response whose JSON body is
not null and either has no rows field or has one that is not an array,
refresh completes the success path: it sets the displayed table to the
empty collection, leaves the error state empty and stamps lastUpdated.
(A body of null instead throws at the property read; the error is caught
and surfaced and the rows are left unchanged.) -/
theorem absent_rows_defaults_empty (s : PanelState) (status now : Nat)
    (j : Json) (hnull : j ≠ .null)
    (h : ∀ xs : List Json,
      j.fieldAccess ("rows") ≠ .ok (some (.arr xs))) :
    (refresh s (.resp true status (.ok j)) now).rows = [] ∧
    (refresh s (.resp true status (.ok j)) now).error = "" ∧
    (refresh s (.resp true status (.ok j)) now).lastUpdated = some now := by
  have hb : tableRowsFromBody j = .ok [] := by
    unfold tableRowsFromBody
    rcases hj : j.fieldAccess ("rows") with m | v
    · exfalso
      rcases j with _ | b | q | t | xs | fields <;>
        simp [Json.fieldAccess] at hj
      exact hnull rfl
    · rcases v with _ | w
      · rfl
      · rcases w with _ | b | q | t | xs | fields
        · rfl
        · rfl
        · rfl
        · rfl
        · exact absurd hj (h xs)
        · rfl
  have hres : tableRowsOf (.resp true status (.ok j)) = some [] := by
    simp [tableRowsOf, hb]
  rw [refresh_success_eq s (.resp true status (.ok j)) now [] hres]
  exact ⟨rfl, rfl, rfl⟩

/-- Witness for the amended C6 at the body of an empty JSON object. -/
theorem absent_rows_defaults_empty_witness :
    (refresh
      { rows := [Json.num 1], busyDemo := false, refreshing := false,
        error := "", lastUpdated := none }
      (.resp true 200 (.ok (Json.obj []))) 6).rows = [] ∧
    (refresh
      { rows := [Json.num 1], busyDemo := false, refreshing := false,
        error := "", lastUpdated := none }
      (.resp true 200 (.ok (Json.obj []))) 6).error = "" ∧
    (refresh
      { rows := [Json.num 1], busyDemo := false, refreshing := false,
        error := "", lastUpdated := none }
      (.resp true 200 (.ok (Json.obj []))) 6).lastUpdated = some 6 :=
  absent_rows_defaults_empty
    { rows := [Json.num 1], busyDemo := false, refreshing := false,
      error := "", lastUpdated := none }
    200 6 (Json.obj []) (fun hcon => Json.noConfusion hcon)
    (fun xs hcon => by simp [Json.fieldAccess, lookupField] at hcon)

/-! ## C4: the demo sequence short-circuits and always releases busyDemo -/

/-- Claim C4: when the choose step throws, the request trace stops at the
choose request — no update and no table fetch are issued — and the thrown
message lands in the error state; when choose succeeds and the update
step fails, the trace stops at the update request — no table fetch — and
that message lands in the error state; and busyDemo is lowered on exit of
every execution, wherever the sequence stopped. -/
theorem demo_short_circuit (user : String) (s : PanelState) (success : Bool)
    (env : DemoEnv) (now : Nat) :
    (∀ msg : String, chooseOutcome env.chooseRes = .error msg →
        (demoStep user s success env now).2 =
          [Request.chooseReq user (.obj [("state", demoState success)])] ∧
        (demoStep user s success env now).1.error = msg) ∧
    (∀ (action : Option Json) (msg : String),
        chooseOutcome env.chooseRes = .ok action →
        updateFailureMsg env.updateRes = some msg →
        (demoStep user s success env now).2 =
          [Request.chooseReq user (.obj [("state", demoState success)]),
           Request.updateReq user (demoState success) action
             (demoReward success) (demoNextState success) false] ∧
        (demoStep user s success env now).1.error = msg) ∧
    (demoStep user s success env now).1.busyDemo = false := by
  refine ⟨?_, ?_, ?_⟩
  · intro msg h
    simp [demoStep, h]
  · intro action msg h1 h2
    simp [demoStep, h1, h2]
  · rcases h : chooseOutcome env.chooseRes with msg | action
    · simp [demoStep, h]
    · rcases h2 : updateFailureMsg env.updateRes with _ | msg
      · simp [demoStep, h, h2]
      · simp [demoStep, h, h2]

/-- Witness for C4: a network failure of choose issues only the choose
request; a 500 on update stops before the table fetch. -/
theorem demo_short_circuit_witness :
    ((demoStep ("guest") initState true
        ⟨.netErr ("choose down"), .netErr ("u"), .netErr ("t")⟩ 0).2 =
      [Request.chooseReq ("guest")
        (.obj [("state", demoState true)])] ∧
     (demoStep ("guest") initState true
        ⟨.netErr ("choose down"), .netErr ("u"), .netErr ("t")⟩ 0).1.error =
      "choose down") ∧
    ((demoStep ("guest") initState false
        ⟨.resp true 200 (.ok (Json.obj [("action", Json.num 2)])),
         .resp false 500 (.ok .null), .netErr ("t")⟩ 1).2 =
      [Request.chooseReq ("guest") (.obj [("state", demoState false)]),
       Request.updateReq ("guest") (demoState false) (some (Json.num 2))
         (demoReward false) (demoNextState false) false] ∧
     (demoStep ("guest") initState false
        ⟨.resp true 200 (.ok (Json.obj [("action", Json.num 2)])),
         .resp false 500 (.ok .null), .netErr ("t")⟩ 1).1.error =
      "POST /q/update HTTP 500") :=
  ⟨(demo_short_circuit ("guest") initState true
      ⟨.netErr ("choose down"), .netErr ("u"), .netErr ("t")⟩ 0).1
      ("choose down") rfl,
   (demo_short_circuit ("guest") initState false
      ⟨.resp true 200 (.ok (Json.obj [("action", Json.num 2)])),
       .resp false 500 (.ok .null), .netErr ("t")⟩ 1).2.1
      (some (Json.num 2)) ("POST /q/update HTTP 500") rfl rfl⟩

/-! ## C7: the update payload of a demo step -/

/-- Claim C7: in every execution of demoStep in which the choose step
yields an action, the update request carries exactly the five fields
state, action, reward, next_state and done, where the reward of a success
is the fixed value 1, the reward of a failure is its negation -1, done is
false, and the next_state is the composed state with only its recentSR
entry changed (to 0.75 after a success, 0.25 after a failure) — the other
three entries are those of the composed state, unchanged. -/
theorem demo_update_payload (user : String) (s : PanelState)
    (success : Bool) (env : DemoEnv) (now : Nat) (action : Option Json)
    (h : chooseOutcome env.chooseRes = .ok action) :
    (∃ rest, (demoStep user s success env now).2 =
        Request.chooseReq user (.obj [("state", demoState success)]) ::
        Request.updateReq user (demoState success) action
          (demoReward success) (demoNextState success) false :: rest) ∧
    demoReward true = 1 ∧
    demoReward false = -demoReward true ∧
    0 < demoReward true ∧
    demoNextState success =
      Json.obj
        [("difficulty", .num 2), ("enemies", .num 1), ("timeMult", .num 1),
         ("recentSR", .num (if success then 3/4 else 1/4))] := by
  refine ⟨?_, rfl, by norm_num [demoReward], by norm_num [demoReward], ?_⟩
  · rcases h2 : updateFailureMsg env.updateRes with _ | msg
    · exact ⟨[Request.tableReq user], by simp [demoStep, h, h2]⟩
    · exact ⟨[], by simp [demoStep, h, h2]⟩
  · cases success <;> rfl

/-- Witness for C7 with a concrete choose response carrying action 3. -/
theorem demo_update_payload_witness :
    (∃ rest, (demoStep ("alice") initState true
        ⟨.resp true 200 (.ok (Json.obj [("action", Json.num 3)])),
         .resp true 200 (.ok .null), .netErr ("t")⟩ 2).2 =
        Request.chooseReq ("alice") (.obj [("state", demoState true)]) ::
        Request.updateReq ("alice") (demoState true) (some (Json.num 3))
          (demoReward true) (demoNextState true) false :: rest) ∧
    demoReward true = 1 ∧
    demoReward false = -demoReward true ∧
    0 < demoReward true ∧
    demoNextState true =
      Json.obj
        [("difficulty", .num 2), ("enemies", .num 1), ("timeMult", .num 1),
         ("recentSR", .num (3/4))] :=
  demo_update_payload ("alice") initState true
    ⟨.resp true 200 (.ok (Json.obj [("action", Json.num 3)])),
     .resp true 200 (.ok .null), .netErr ("t")⟩ 2 (some (Json.num 3)) rfl

/-! ## C10: a 2xx choose response without an action field still proceeds -/

/-- Claim C10 counterexample: the claim quantifies over every 2xx choose
response whose JSON body lacks an action field and says demoStep never
aborts there, regardless of the body shape.  The body null lacks an
action field, yet at that input the read of choose.action throws a
TypeError: demoStep aborts, the error is surfaced, and no update request
is issued. -/
theorem null_choose_body_aborts :
    (demoStep ("guest") initState true
      ⟨.resp true 200 (.ok .null), .resp true 200 (.ok .null),
       .netErr ("t")⟩ 3).2 =
      [Request.chooseReq ("guest") (.obj [("state", demoState true)])] ∧
    (demoStep ("guest") initState true
      ⟨.resp true 200 (.ok .null), .resp true 200 (.ok .null),
       .netErr ("t")⟩ 3).1.error =
      "TypeError: Cannot read properties of null (reading action)" :=
  ⟨rfl, rfl⟩

/-- Claim C10 (amended): when the choose request returns a 2xx response
whose parsed body is not null and has no action field, demoStep does not
abort: the read of choose.action yields undefined and the update request
is still issued, carrying that undefined action — such a 2xx choose
response is treated as success despite its body shape.  (When the 2xx
body is null, the action read instead throws: the error is surfaced and
no update is issued.) -/
theorem choose_without_action_proceeds (user : String) (s : PanelState)
    (success : Bool) (env : DemoEnv) (now : Nat) (status : Nat) (j : Json)
    (hres : env.chooseRes = .resp true status (.ok j))
    (_hnull : j ≠ .null)
    (hact : j.fieldAccess ("action") = .ok none) :
    ∃ rest, (demoStep user s success env now).2 =
        Request.chooseReq user (.obj [("state", demoState success)]) ::
        Request.updateReq user (demoState success) none
          (demoReward success) (demoNextState success) false :: rest := by
  have h : chooseOutcome env.chooseRes = .ok none := by
    rw [hres]
    exact hact
  rcases h2 : updateFailureMsg env.updateRes with _ | msg
  · exact ⟨[Request.tableReq user], by simp [demoStep, h, h2]⟩
  · exact ⟨[], by simp [demoStep, h, h2]⟩

/-- Witness for the amended C10: a 2xx choose response with the empty
object body still leads to an update request with an undefined action. -/
theorem choose_without_action_proceeds_witness :
    ∃ rest, (demoStep ("guest") initState true
        ⟨.resp true 200 (.ok (Json.obj [])),
         .resp true 200 (.ok .null), .netErr ("t")⟩ 3).2 =
        Request.chooseReq ("guest") (.obj [("state", demoState true)]) ::
        Request.updateReq ("guest") (demoState true) none
          (demoReward true) (demoNextState true) false :: rest :=
  choose_without_action_proceeds ("guest") initState true
    ⟨.resp true 200 (.ok (Json.obj [])),
     .resp true 200 (.ok .null), .netErr ("t")⟩ 3 200 (Json.obj [])
    rfl (fun hcon => Json.noConfusion hcon) rfl

end QTable
